import Mathlib

/-!
Verification of `contentpilot-humanizer/humanizer.py` (ContentPilot).

The script reads one JSON object from stdin, validates/defaults the fields
`text`, `strength`, `personality`, delegates to the external `humano`
capability, and prints one compact JSON object to stdout; every failure is
turned into a single `Error: <message>` print on stderr and exit status 1.

Modelling choices (shallow embedding):
* JSON values are the inductive `Json`; Python exceptions that the script
  can raise or distinguish are `PyErr` (only `str(e)` — the payload — is
  observable in the output).
* External effects are oracles passed in an `Env`:
  - `loads` stands for `json.loads` on the stripped stdin text
    (`Except.error m` = a `json.JSONDecodeError` whose `str` is `m`);
  - `cap` stands for the `humano` package: `available = false` means
    `from humano import humanize` raises `ImportError`; `humanize` is the
    imported callable, which may return any value or raise;
  - `clock` stands for `datetime.now().isoformat()` (`none` = any failure
    while obtaining the timestamp);
  - `serFault` stands for a failure of `json.dumps` in `output_result`
    (`some m` = it raises an exception whose `str` is `m`).
* An execution result records the exit status, the list of strings printed
  to stdout and to stderr (one list element per Python `print` call), and
  the trace of calls made to the external capability (`capCalls`), so that
  "the capability is (not) invoked with these arguments" is directly
  statable.
-/

namespace Humanizer

/-- JSON values (as returned by `json.loads`). Numbers are modelled as
integers; no claim depends on numeric values, only on a number not being a
string. Objects are association lists; `lookup` finds the first binding. -/
inductive Json where
  | null
  | bool (b : Bool)
  | num (n : Int)
  | str (s : String)
  | arr (elems : List Json)
  | obj (fields : List (String × Json))
deriving Inhabited

/-- Python exceptions the script raises or distinguishes. The payload is
`str(e)`, which is all the script ever prints. -/
inductive PyErr where
  | valueError (msg : String)
  | importError (msg : String)
  | runtimeError (msg : String)
  | attributeError (msg : String)
  | jsonDecodeError (msg : String)
deriving Repr, DecidableEq, Inhabited

/-- `str(e)` of an exception: its message. -/
def PyErr.msg : PyErr → String
  | .valueError m => m
  | .importError m => m
  | .runtimeError m => m
  | .attributeError m => m
  | .jsonDecodeError m => m

/-- ASCII whitespace stripped by Python `str.strip()`. -/
def isPySpace (c : Char) : Bool :=
  c = ' ' || c = '\t' || c = '\n' || c = '\r' || c = '\x0b' || c = '\x0c'

/-- Python `str.strip()`: remove leading and trailing whitespace. -/
def pyStrip (s : String) : String :=
  String.mk (((s.data.dropWhile isPySpace).reverse.dropWhile isPySpace).reverse)

/-- The Python type name of a JSON value, as it appears in
`AttributeError` messages. -/
def Json.typeName : Json → String
  | .null => "NoneType"
  | .bool _ => "bool"
  | .num _ => "int"
  | .str _ => "str"
  | .arr _ => "list"
  | .obj _ => "dict"

/-- `v.get(key, dflt)`: dictionary lookup with default; on a non-dict the
attribute access `.get` raises `AttributeError`. -/
def Json.getD (v : Json) (key : String) (dflt : Json) : Except PyErr Json :=
  match v with
  | .obj fields => .ok ((fields.lookup key).getD dflt)
  | other =>
      .error (.attributeError
        ("\x27" ++ other.typeName ++ "\x27 object has no attribute \x27get\x27"))

/-- `v.strip()`: defined on strings; on any other value the attribute
access `.strip` raises `AttributeError`. -/
def Json.strip (v : Json) : Except PyErr String :=
  match v with
  | .str s => .ok (pyStrip s)
  | other =>
      .error (.attributeError
        ("\x27" ++ other.typeName ++ "\x27 object has no attribute \x27strip\x27"))

/-- A value returned by the external `humanize` callable: either a string,
or a non-string together with its `str()` rendering. -/
inductive PyRet where
  | str (s : String)
  | other (stringified : String)
deriving Repr, DecidableEq, Inhabited

/-- `str()` applied to the capability result (the identity on strings). -/
def PyRet.stringify : PyRet → String
  | .str s => s
  | .other r => r

/-- Outcome of one call to the external `humanize` callable: it returns a
value or raises an exception. -/
inductive CapOutcome where
  | ok (ret : PyRet)
  | exn (e : PyErr)

/-- The external `humano` capability. `available = false` models
`from humano import humanize` raising `ImportError`; `humanize` takes the
text, the strength, and the optional personality keyword argument. -/
structure Capability where
  available : Bool
  humanize : String → String → Option String → CapOutcome

/-- One recorded invocation of the external capability, with the arguments
it was given. -/
structure CapCall where
  text : String
  strength : String
  personality : Option String
deriving Repr, DecidableEq

/-- The observable result of one process execution: exit status, the
strings printed to stdout and stderr (one entry per `print` call), and the
trace of calls made to the external capability. -/
structure ExecResult where
  exitCode : Nat
  stdout : List String
  stderr : List String
  capCalls : List CapCall
deriving Repr, DecidableEq

/-- The process environment: the oracles for `json.loads`, the `humano`
package, the clock, a possible `json.dumps` fault, and whether
`sys.version_info < (3, 6)`. -/
structure Env where
  loads : String → Except String Json
  cap : Capability
  clock : Option String
  serFault : Option String
  pythonTooOld : Bool

/-- `read_input()`: strip stdin, fail if empty, else parse. The inner
`ValueError` for empty input is itself caught by `except Exception` and
re-wrapped, so the surfaced message is `Failed to read input: ...`;
a `json.JSONDecodeError` is wrapped as `Invalid JSON input: ...`. -/
def read_input (loads : String → Except String Json) (stdin : String) :
    Except PyErr Json :=
  let body : Except PyErr Json :=
    let stdin_data := pyStrip stdin
    if stdin_data = "" then
      .error (.valueError ("No input received from stdin"))
    else
      match loads stdin_data with
      | .ok v => .ok v
      | .error m => .error (.jsonDecodeError m)
  match body with
  | .ok v => .ok v
  | .error (.jsonDecodeError m) =>
      .error (.valueError ("Invalid JSON input: " ++ m))
  | .error e =>
      .error (.valueError ("Failed to read input: " ++ e.msg))

/-- The availability message of `process_with_humano` (the two adjacent
Python string literals concatenate). -/
def availabilityMsg : String :=
  "The \x27humano\x27 package is not installed. Install it with: pip install humano"

/-- `valid_strengths` from `process_with_humano`. -/
def valid_strengths : List String := ["low", "medium", "high", "maximum"]

/-- `if strength not in valid_strengths: strength = 'medium'`. The raw
`strength` value may be any JSON value; a non-string is never `in` a list
of strings, so it is coerced to `"medium"`. -/
def coerceStrength (strength : Json) : String :=
  match strength with
  | .str s => if valid_strengths.contains s then s else "medium"
  | _ => "medium"

/-- `process_with_humano(text, strength, personality)`. Returns the
result (or the raised exception) together with the trace of calls made to
the external capability. The outer `except ImportError` re-raises any
`ImportError` (from the import *or* from `humanize` itself) with its own
message; `except Exception` wraps everything else as
`RuntimeError("Humano processing failed: ...")`. -/
def process_with_humano (cap : Capability) (text : String)
    (strength personality : Json) : Except PyErr String × List CapCall :=
  let body : Except PyErr String × List CapCall :=
    if !cap.available then
      (.error (.importError availabilityMsg), [])
    else
      let strength1 := coerceStrength strength
      match personality.strip with
      | .error e => (.error e, [])
      | .ok p =>
          let popt := if p = "" then none else some p
          let call : CapCall := ⟨text, strength1, popt⟩
          match cap.humanize text strength1 popt with
          | .exn e => (.error e, [call])
          | .ok ret => (.ok (pyStrip ret.stringify), [call])
  match body with
  | (.ok r, calls) => (.ok r, calls)
  | (.error (.importError m), calls) => (.error (.importError m), calls)
  | (.error e, calls) =>
      (.error (.runtimeError ("Humano processing failed: " ++ e.msg)), calls)

/-- `get_current_timestamp()`: the ISO timestamp from the clock, or the
literal `"unknown"` if clock access fails. -/
def get_current_timestamp (clock : Option String) : String :=
  match clock with
  | some t => t
  | none => "unknown"

/-- One hexadecimal digit (lowercase), for `\uXXXX` escapes. -/
def hexDigit (n : Nat) : Char :=
  if n < 10 then Char.ofNat (48 + n) else Char.ofNat (87 + n)

/-- Four lowercase hexadecimal digits. -/
def hex4 (n : Nat) : String :=
  String.mk [hexDigit (n / 4096 % 16), hexDigit (n / 256 % 16),
             hexDigit (n / 16 % 16), hexDigit (n % 16)]

/-- How `json.dumps` (with `ensure_ascii=False`) escapes one character of
a string: `"` and `\` are backslash-escaped, control characters below
U+0020 use short escapes or `\uXXXX`, and everything else — including
non-ASCII — is emitted as itself. -/
def escapeChar (c : Char) : String :=
  if c = '"' then "\\\""
  else if c = '\\' then "\\\\"
  else if c = '\n' then "\\n"
  else if c = '\r' then "\\r"
  else if c = '\t' then "\\t"
  else if c = '\x08' then "\\b"
  else if c = '\x0c' then "\\f"
  else if c.toNat < 32 then "\\u" ++ hex4 c.toNat
  else String.singleton c

/-- A JSON string literal as `json.dumps(..., ensure_ascii=False)` emits
it. -/
def encodeString (s : String) : String :=
  "\"" ++ String.join (s.data.map escapeChar) ++ "\""

/-- `json.dumps(output_data, ensure_ascii=False, separators=(',', ':'))`
for the output dictionary, whose insertion order is `humanized_text`,
`timestamp`, `success` (the latter always `True`): compact separators and
no ASCII-escaping of non-ASCII characters. -/
def dumpsOutput (humanized_text timestamp : String) : String :=
  "\x7b\"humanized_text\":" ++ encodeString humanized_text ++
    ",\"timestamp\":" ++ encodeString timestamp ++
    ",\"success\":true\x7d"

/-- `output_result(humanized_text)` together with the surrounding end of
`main`: on a `json.dumps` fault nothing reaches stdout, the message is
printed to stderr and the process exits with status 1 (`sys.exit` raises
`SystemExit`, which `except Exception` does not catch); otherwise the one
JSON line is printed and `main` falls off the end with status 0. -/
def output_result (humanized_text : String) (clock : Option String)
    (serFault : Option String) (calls : List CapCall) : ExecResult :=
  match serFault with
  | some m =>
      { exitCode := 1, stdout := [],
        stderr := ["Error: Failed to output result: " ++ m],
        capCalls := calls }
  | none =>
      { exitCode := 0,
        stdout := [dumpsOutput humanized_text (get_current_timestamp clock)],
        stderr := [], capCalls := calls }

/-- The `except Exception` handler at the end of `main`: print
`Error: <str(e)>` to stderr and exit with status 1. -/
def errExit (e : PyErr) (calls : List CapCall) : ExecResult :=
  { exitCode := 1, stdout := [], stderr := ["Error: " ++ e.msg],
    capCalls := calls }

/-- `main()`: read stdin, extract `text`/`strength`/`personality` with
defaults, validate `text` (a non-string raises `AttributeError` at
`text.strip()`), delegate to `process_with_humano`, output the result.
Any exception is caught and turned into `Error: ...` on stderr with exit
status 1. -/
def pyMain (env : Env) (stdin : String) : ExecResult :=
  match read_input env.loads stdin with
  | .error e => errExit e []
  | .ok input_data =>
    match input_data.getD "text" (.str "") with
    | .error e => errExit e []
    | .ok text =>
      match input_data.getD "strength" (.str "medium") with
      | .error e => errExit e []
      | .ok strength =>
        match input_data.getD "personality" (.str "") with
        | .error e => errExit e []
        | .ok personality =>
          match text with
          | .str ts =>
              if pyStrip ts = "" then
                errExit (.valueError ("No text provided for humanization")) []
              else
                match process_with_humano env.cap ts strength personality with
                | (.error e, calls) => errExit e calls
                | (.ok humanized, calls) =>
                    output_result humanized env.clock env.serFault calls
          | other =>
              errExit (.attributeError
                ("\x27" ++ other.typeName ++
                  "\x27 object has no attribute \x27strip\x27")) []

/-- `check_dependencies()`: the list of issues. -/
def check_dependencies (env : Env) : List String :=
  (if env.pythonTooOld then ["Python 3.6+ required"] else []) ++
  (if env.cap.available then []
   else ["humano package not installed (pip install humano)"])

/-- `print_dependencies_help()`: the stderr lines of the diagnostics
report (one list element per `print` call; the embedded `\n` of two of the
Python literals is kept verbatim). -/
def print_dependencies_help (env : Env) : List String :=
  let issues := check_dependencies env
  if issues = [] then
    ["Dependencies Check Results:", "✓ All dependencies are available"]
  else
    ["Dependencies Check Results:", "✗ Missing dependencies:"] ++
    issues.map (fun i => "  - " ++ i) ++
    ["\nInstallation Instructions:",
     "1. Install Python 3.6+ if not already installed",
     "2. Install the humano package:",
     "   pip install humano",
     "   OR for Python 3 specifically:",
     "   python3 -m pip install humano",
     "\nFor virtual environments:",
     "   source venv/bin/activate",
     "   pip install humano"]

/-- `sys.argv` requests help: `len(sys.argv) > 1 and sys.argv[1] in
['--help', '-h', 'help']` (element 0 is the program name). -/
def wantsHelp (argv : List String) : Bool :=
  match argv with
  | _ :: a1 :: _ => ["--help", "-h", "help"].contains a1
  | _ => false

/-- The `if __name__ == "__main__"` entry point: the help flags
short-circuit to the diagnostics report on stderr and exit 0 without
touching stdin; otherwise `main()` runs. -/
def run (argv : List String) (env : Env) (stdin : String) : ExecResult :=
  if wantsHelp argv then
    { exitCode := 0, stdout := [], stderr := print_dependencies_help env,
      capCalls := [] }
  else
    pyMain env stdin

/-! Concrete fixtures used to instantiate the theorems. -/

/-- ASCII uppercase of one character (kernel-computable stand-in for
Python `str.upper` on the ASCII inputs the fixtures use). -/
def asciiUpperChar (c : Char) : Char :=
  if 'a' ≤ c ∧ c ≤ 'z' then Char.ofNat (c.toNat - 32) else c

/-- ASCII uppercase of a string; whitespace is preserved, as by Python
`str.upper`. -/
def asciiUpper (s : String) : String :=
  String.mk (s.data.map asciiUpperChar)

/-- Stub capability that uppercases its input (the spec's test stub). -/
def upperCap : Capability where
  available := true
  humanize := fun text _ _ => .ok (.str (asciiUpper text))

/-- A capability that imports fine but raises `ImportError("boom")` when
invoked. -/
def importErrCap : Capability where
  available := true
  humanize := fun _ _ _ => .exn (.importError ("boom"))

/-- The `humano` package is not installed. -/
def absentCap : Capability where
  available := false
  humanize := fun _ _ _ => .ok (.str (""))

/-- Parser oracle recognizing exactly one input text. -/
def loadsOnly (s : String) (v : Json) : String → Except String Json :=
  fun t => if t = s then .ok v else .error ("Expecting value: line 1 column 1 (char 0)")

/-- An environment with the given capability and parser oracle, a working
clock and no serialization fault. -/
def envWith (cap : Capability) (loads : String → Except String Json) : Env where
  loads := loads
  cap := cap
  clock := some ("2024-01-01T00:00:00")
  serFault := none
  pythonTooOld := false

/-- Stdin for the C1 counterexample: text with surrounding whitespace. -/
def cexStdin : String := "\x7b\"text\":\" hi \"\x7d"

/-- Parsed request of `cexStdin`. -/
def cexReq : Json := .obj [("text", Json.str (" hi "))]

/-- Environment for the C1 counterexample. -/
def cexEnv : Env := envWith upperCap (loadsOnly cexStdin cexReq)

/-- Stdin for the C6 counterexample. -/
def impStdin : String := "\x7b\"text\":\"x\"\x7d"

/-- Parsed request of `impStdin`. -/
def impReq : Json := .obj [("text", Json.str ("x"))]

/-- Environment for the C6 counterexample: the capability raises
`ImportError` when invoked. -/
def impEnv : Env := envWith importErrCap (loadsOnly impStdin impReq)

/-- A capability whose result is a whitespace-only string. -/
def wsCap : Capability where
  available := true
  humanize := fun _ _ _ => .ok (.str ("   "))

/-- Environment whose capability returns a whitespace-only result. -/
def wsEnv : Env := envWith wsCap (loadsOnly impStdin impReq)

/-- Environment whose stdin parses to a top-level JSON array. -/
def arrEnv : Env := envWith upperCap (loadsOnly ("[1]") (Json.arr [Json.num 1]))

/-- The personality keyword argument actually passed to the capability,
as a function of the raw `personality` string `p`. -/
def persArg (p : String) : Option String :=
  if pyStrip p = "" then none else some (pyStrip p)

/-- The one capability call of a successful validation phase. -/
def theCall (t : String) (sv : Json) (p : String) : CapCall :=
  ⟨t, coerceStrength sv, persArg p⟩

/-! Helper lemmas about the embedded pipeline. -/

theorem read_input_empty (loads : String → Except String Json) (stdin : String)
    (h : pyStrip stdin = "") :
    read_input loads stdin =
      .error (.valueError ("Failed to read input: No input received from stdin")) := by
  unfold read_input
  simp [h, PyErr.msg]

theorem read_input_ok (loads : String → Except String Json) (stdin : String)
    (v : Json) (hne : pyStrip stdin ≠ "")
    (h : loads (pyStrip stdin) = .ok v) :
    read_input loads stdin = .ok v := by
  unfold read_input
  simp [hne, h]

theorem read_input_badjson (loads : String → Except String Json) (stdin : String)
    (m : String) (hne : pyStrip stdin ≠ "")
    (h : loads (pyStrip stdin) = .error m) :
    read_input loads stdin = .error (.valueError ("Invalid JSON input: " ++ m)) := by
  unfold read_input
  simp [hne, h]

theorem run_not_help (argv : List String) (env : Env) (stdin : String)
    (h : wantsHelp argv = false) :
    run argv env stdin = pyMain env stdin := by
  unfold run
  simp [h]

theorem run_request (argv : List String) (env : Env) (stdin : String)
    (fl : List (String × Json)) (t p : String) (sv : Json)
    (hargv : wantsHelp argv = false)
    (hstdin : pyStrip stdin ≠ "")
    (hload : env.loads (pyStrip stdin) = .ok (.obj fl))
    (htext : (List.lookup "text" fl).getD (Json.str ("")) = Json.str t)
    (hstr : (List.lookup "strength" fl).getD (Json.str ("medium")) = sv)
    (hpers : (List.lookup "personality" fl).getD (Json.str ("")) = Json.str p)
    (hne : pyStrip t ≠ "")
    (hcap : env.cap.available = true) :
    run argv env stdin =
      match env.cap.humanize t (coerceStrength sv) (persArg p) with
      | .ok ret =>
          output_result (pyStrip ret.stringify) env.clock env.serFault
            [theCall t sv p]
      | .exn e =>
          errExit
            (match e with
             | .importError m => .importError m
             | e1 => .runtimeError ("Humano processing failed: " ++ PyErr.msg e1))
            [theCall t sv p] := by
  rw [run_not_help argv env stdin hargv]
  unfold pyMain
  rw [read_input_ok env.loads stdin (.obj fl) hstdin hload]
  simp only [Json.getD, htext, hstr, hpers]
  rw [if_neg hne]
  unfold process_with_humano
  simp only [hcap, Bool.not_true, Bool.false_eq_true, if_false, Json.strip]
  rcases hu : env.cap.humanize t (coerceStrength sv) (persArg p) with ret | e
  · simp only [persArg] at hu
    simp only [hu, theCall, persArg]
  · simp only [persArg] at hu
    simp only [hu]
    rcases e with m | m | m | m | m <;> simp [theCall, persArg, PyErr.msg]

theorem run_request_unavailable (argv : List String) (env : Env) (stdin : String)
    (fl : List (String × Json)) (t : String)
    (hargv : wantsHelp argv = false)
    (hstdin : pyStrip stdin ≠ "")
    (hload : env.loads (pyStrip stdin) = .ok (.obj fl))
    (htext : (List.lookup "text" fl).getD (Json.str ("")) = Json.str t)
    (hne : pyStrip t ≠ "")
    (hcap : env.cap.available = false) :
    run argv env stdin = errExit (.importError availabilityMsg) [] := by
  rw [run_not_help argv env stdin hargv]
  unfold pyMain
  rw [read_input_ok env.loads stdin (.obj fl) hstdin hload]
  simp only [Json.getD, htext]
  rw [if_neg hne]
  unfold process_with_humano
  simp [hcap]

theorem foorSplit :
    ("Error: Failed to output result: " : String) =
      "Error: " ++ "Failed to output result: " := by
  decide

theorem pyMain_shape (env : Env) (stdin : String) :
    (∃ line calls, pyMain env stdin =
        { exitCode := 0, stdout := [line], stderr := [], capCalls := calls }) ∨
    (∃ m calls, pyMain env stdin =
        { exitCode := 1, stdout := [], stderr := ["Error: " ++ m], capCalls := calls }) := by
  unfold pyMain errExit
  split
  · right; exact ⟨_, _, rfl⟩
  · split
    · right; exact ⟨_, _, rfl⟩
    · split
      · right; exact ⟨_, _, rfl⟩
      · split
        · right; exact ⟨_, _, rfl⟩
        · split
          · split
            · right; exact ⟨_, _, rfl⟩
            · split
              · right; exact ⟨_, _, rfl⟩
              · rename_i humanized calls heqp
                unfold output_result
                split
                next m heq =>
                  right
                  refine ⟨"Failed to output result: " ++ m, calls, ?_⟩
                  rw [show ("Error: " ++ ("Failed to output result: " ++ m) : String) =
                      "Error: Failed to output result: " ++ m from by
                    rw [← String.append_assoc, ← foorSplit]]
                next heq =>
                  left; exact ⟨_, _, rfl⟩
          · right; exact ⟨_, _, rfl⟩

/-- C1 (corrected), counterexample: with the uppercasing stub and the
non-blank request text `" hi "`, the run succeeds but the printed
`humanized_text` is the *stripped* uppercase `"HI"`, not the uppercase
`" HI "` the claim asks for. -/
theorem C1_counterexample :
    (run ["humanizer.py"] cexEnv cexStdin).exitCode = 0 ∧
    (run ["humanizer.py"] cexEnv cexStdin).stdout ≠
      [dumpsOutput (asciiUpper (" hi ")) ("2024-01-01T00:00:00")] := by
  refine ⟨?_, ?_⟩ <;> decide

/-- C1 (amended): for every request object whose `text` is non-blank (and
whose `personality` is absent or a string), when the capability is
available and returns the uppercase of its input and serialization does
not fail, the program exits with status 0 and writes to stdout exactly
one JSON object with the uppercased text stripped of leading/trailing
whitespace, the timestamp from the clock (or `"unknown"` on clock
failure), and `success: true`, serialized compactly without
ASCII-escaping non-ASCII characters (this is `dumpsOutput`); stderr gets
nothing. -/
theorem C1_success_output (argv : List String) (env : Env) (stdin : String)
    (fl : List (String × Json)) (t p : String) (sv : Json)
    (hargv : wantsHelp argv = false)
    (hstdin : pyStrip stdin ≠ "")
    (hload : env.loads (pyStrip stdin) = .ok (.obj fl))
    (htext : (List.lookup "text" fl).getD (Json.str ("")) = Json.str t)
    (hstr : (List.lookup "strength" fl).getD (Json.str ("medium")) = sv)
    (hpers : (List.lookup "personality" fl).getD (Json.str ("")) = Json.str p)
    (hne : pyStrip t ≠ "")
    (hcap : env.cap.available = true)
    (hstub : ∀ s st po, env.cap.humanize s st po = .ok (.str (asciiUpper s)))
    (hser : env.serFault = none) :
    run argv env stdin =
      { exitCode := 0,
        stdout := [dumpsOutput (pyStrip (asciiUpper t)) (get_current_timestamp env.clock)],
        stderr := [],
        capCalls := [theCall t sv p] } := by
  rw [run_request argv env stdin fl t p sv hargv hstdin hload htext hstr hpers hne hcap]
  rw [hstub]
  simp only [output_result, hser, PyRet.stringify]

theorem C1_success_output_witness :
    run ["humanizer.py"] cexEnv cexStdin =
      { exitCode := 0,
        stdout := [dumpsOutput (pyStrip (asciiUpper (" hi ")))
          (get_current_timestamp cexEnv.clock)],
        stderr := [],
        capCalls := [theCall (" hi ") (Json.str ("medium")) ("")] } :=
  C1_success_output ["humanizer.py"] cexEnv cexStdin [("text", Json.str (" hi "))]
    (" hi ") ("") (Json.str ("medium")) (by decide) (by decide) rfl rfl rfl rfl
    (by decide) rfl (fun s st po => rfl) rfl

/-- C2: for every execution on the request-processing path (no help
flag), either the run succeeds — exit status 0, exactly one stdout line,
nothing on stderr — or it fails — exit status 1, nothing on stdout (no
partial output), and exactly one stderr print beginning `Error: `. -/
theorem C2_error_discipline (argv : List String) (env : Env) (stdin : String)
    (hargv : wantsHelp argv = false) :
    ((run argv env stdin).exitCode = 0 ∧
      (∃ line, (run argv env stdin).stdout = [line]) ∧
      (run argv env stdin).stderr = []) ∨
    ((run argv env stdin).exitCode = 1 ∧
      (run argv env stdin).stdout = [] ∧
      ∃ m, (run argv env stdin).stderr = ["Error: " ++ m]) := by
  rw [run_not_help argv env stdin hargv]
  rcases pyMain_shape env stdin with ⟨line, calls, h⟩ | ⟨m, calls, h⟩
  · left; rw [h]; exact ⟨rfl, ⟨line, rfl⟩, rfl⟩
  · right; rw [h]; exact ⟨rfl, rfl, ⟨m, rfl⟩⟩

theorem C2_error_discipline_witness :
    ((run ["humanizer.py"] cexEnv cexStdin).exitCode = 0 ∧
      (∃ line, (run ["humanizer.py"] cexEnv cexStdin).stdout = [line]) ∧
      (run ["humanizer.py"] cexEnv cexStdin).stderr = []) ∨
    ((run ["humanizer.py"] cexEnv cexStdin).exitCode = 1 ∧
      (run ["humanizer.py"] cexEnv cexStdin).stdout = [] ∧
      ∃ m, (run ["humanizer.py"] cexEnv cexStdin).stderr = ["Error: " ++ m]) :=
  C2_error_discipline ["humanizer.py"] cexEnv cexStdin (by decide)

/-- C3: for every input JSON object whose `text` field is absent, the
empty string, or whitespace-only (all three give a string whose strip is
empty, the absent field through the `''` default), the program exits with
status 1 on the blank-text validation error and the external capability
is never invoked (empty call trace). -/
theorem C3_blank_text (argv : List String) (env : Env) (stdin : String)
    (fl : List (String × Json)) (t : String)
    (hargv : wantsHelp argv = false)
    (hstdin : pyStrip stdin ≠ "")
    (hload : env.loads (pyStrip stdin) = .ok (.obj fl))
    (htext : (List.lookup "text" fl).getD (Json.str ("")) = Json.str t)
    (hblank : pyStrip t = "") :
    run argv env stdin =
      { exitCode := 1, stdout := [],
        stderr := ["Error: No text provided for humanization"],
        capCalls := [] } := by
  rw [run_not_help argv env stdin hargv]
  unfold pyMain
  rw [read_input_ok env.loads stdin (.obj fl) hstdin hload]
  simp only [Json.getD, htext]
  rw [if_pos hblank]
  rfl

theorem C3_blank_text_witness :
    run ["humanizer.py"] (envWith upperCap (loadsOnly ("\x7b\x7d") (Json.obj [])))
        ("\x7b\x7d") =
      { exitCode := 1, stdout := [],
        stderr := ["Error: No text provided for humanization"],
        capCalls := [] } :=
  C3_blank_text ["humanizer.py"] (envWith upperCap (loadsOnly ("\x7b\x7d") (Json.obj [])))
    ("\x7b\x7d") [] ("") (by decide) (by decide) rfl rfl rfl

/-- C4: `read_input` consumes the whole input stream and fails with an
input error both on empty (or whitespace-only) stdin — the inner
`ValueError` resurfaces re-wrapped as `Failed to read input: ...` — and
on stdin that does not parse as JSON (`Invalid JSON input: ...`); valid
JSON is returned parsed; and any `read_input` failure makes the program
exit with status 1 printing one `Error: `-prefixed stderr line and
nothing to stdout. -/
theorem C4_read_input_behavior (loads : String → Except String Json) (stdin : String) :
    (pyStrip stdin = "" →
      read_input loads stdin =
        .error (.valueError ("Failed to read input: No input received from stdin"))) ∧
    (∀ m, pyStrip stdin ≠ "" → loads (pyStrip stdin) = .error m →
      read_input loads stdin = .error (.valueError ("Invalid JSON input: " ++ m))) ∧
    (∀ v, pyStrip stdin ≠ "" → loads (pyStrip stdin) = .ok v →
      read_input loads stdin = .ok v) ∧
    (∀ env argv e, wantsHelp argv = false → env.loads = loads →
      read_input loads stdin = .error e →
      run argv env stdin =
        { exitCode := 1, stdout := [], stderr := ["Error: " ++ e.msg],
          capCalls := [] }) := by
  refine ⟨?_, ?_, ?_, ?_⟩
  · intro h
    exact read_input_empty loads stdin h
  · intro m hne h
    exact read_input_badjson loads stdin m hne h
  · intro v hne h
    exact read_input_ok loads stdin v hne h
  · intro env argv e hargv henv h
    rw [run_not_help argv env stdin hargv]
    unfold pyMain
    rw [henv, h]
    rfl

theorem C4_read_input_behavior_witness :
    read_input (loadsOnly impStdin impReq) ("") =
      .error (.valueError ("Failed to read input: No input received from stdin")) ∧
    run ["humanizer.py"] (envWith upperCap (loadsOnly impStdin impReq)) ("") =
      { exitCode := 1, stdout := [],
        stderr := ["Error: Failed to read input: No input received from stdin"],
        capCalls := [] } := by
  have h := C4_read_input_behavior (loadsOnly impStdin impReq) ("")
  have h1 := h.1 (by decide)
  exact ⟨h1, h.2.2.2 (envWith upperCap (loadsOnly impStdin impReq)) ["humanizer.py"]
    (.valueError ("Failed to read input: No input received from stdin"))
    (by decide) rfl h1⟩

theorem output_result_capCalls (h : String) (c so : Option String)
    (calls : List CapCall) :
    (output_result h c so calls).capCalls = calls := by
  unfold output_result
  split <;> rfl

/-- C5: whenever the request reaches the external capability (text valid
and non-blank, personality a string or absent, capability importable),
the capability is invoked exactly once with strength `coerceStrength sv`
— regardless of the raw strength value, so a request is never rejected
on account of it — and `coerceStrength` passes a valid strength (one of
low/medium/high/maximum) through unchanged while mapping every invalid
or non-string value to `"medium"`; an absent field reaches it as the
default `"medium"`, which is valid. -/
theorem C5_strength_coercion (argv : List String) (env : Env) (stdin : String)
    (fl : List (String × Json)) (t p : String) (sv : Json)
    (hargv : wantsHelp argv = false)
    (hstdin : pyStrip stdin ≠ "")
    (hload : env.loads (pyStrip stdin) = .ok (.obj fl))
    (htext : (List.lookup "text" fl).getD (Json.str ("")) = Json.str t)
    (hstr : (List.lookup "strength" fl).getD (Json.str ("medium")) = sv)
    (hpers : (List.lookup "personality" fl).getD (Json.str ("")) = Json.str p)
    (hne : pyStrip t ≠ "")
    (hcap : env.cap.available = true) :
    (∃ po, (run argv env stdin).capCalls = [⟨t, coerceStrength sv, po⟩]) ∧
    (∀ s, sv = Json.str s → valid_strengths.contains s = true →
      coerceStrength sv = s) ∧
    (∀ s, sv = Json.str s → valid_strengths.contains s = false →
      coerceStrength sv = "medium") ∧
    ((∀ s, sv ≠ Json.str s) → coerceStrength sv = "medium") := by
  refine ⟨⟨persArg p, ?_⟩, ?_, ?_, ?_⟩
  · rw [run_request argv env stdin fl t p sv hargv hstdin hload htext hstr hpers hne hcap]
    rcases env.cap.humanize t (coerceStrength sv) (persArg p) with ret | e
    · rw [output_result_capCalls]
      rfl
    · rfl
  · intro s hs hc
    subst hs
    show (if valid_strengths.contains s = true then s else "medium") = s
    rw [hc]
    simp
  · intro s hs hc
    subst hs
    show (if valid_strengths.contains s = true then s else "medium") = "medium"
    rw [hc]
    simp
  · intro h
    rcases hsv : sv with _ | b | n | s | xs | gl
    · rfl
    · rfl
    · rfl
    · exact absurd hsv (h s)
    · rfl
    · rfl

theorem C5_strength_coercion_witness :
    (∃ po, (run ["humanizer.py"] impEnv impStdin).capCalls =
      [⟨("x"), coerceStrength (Json.str ("medium")), po⟩]) ∧
    (∀ s, Json.str ("medium") = Json.str s → valid_strengths.contains s = true →
      coerceStrength (Json.str ("medium")) = s) ∧
    (∀ s, Json.str ("medium") = Json.str s → valid_strengths.contains s = false →
      coerceStrength (Json.str ("medium")) = "medium") ∧
    ((∀ s, Json.str ("medium") ≠ Json.str s) →
      coerceStrength (Json.str ("medium")) = "medium") :=
  C5_strength_coercion ["humanizer.py"] impEnv impStdin [("text", Json.str ("x"))]
    ("x") ("") (Json.str ("medium")) (by decide) (by decide) rfl rfl rfl rfl
    (by decide) rfl

/-- C6 (corrected), counterexample: a capability that raises
`ImportError("boom")` while being invoked is *not* wrapped as a
processing error — the outer `except ImportError` catches it first — so
stderr carries `Error: boom`, not
`Error: Humano processing failed: boom`. -/
theorem C6_counterexample :
    (run ["humanizer.py"] impEnv impStdin).exitCode = 1 ∧
    (run ["humanizer.py"] impEnv impStdin).stderr = ["Error: boom"] ∧
    (run ["humanizer.py"] impEnv impStdin).stderr ≠
      ["Error: Humano processing failed: boom"] := by
  refine ⟨?_, ?_, ?_⟩ <;> decide

/-- C6 (amended): if the capability cannot be imported the run fails with
the distinct availability message (naming the `humano` package and the
`pip install humano` command) without invoking it; a non-`ImportError`
exception raised while invoking the capability is wrapped and reported as
`Humano processing failed: ...`; an `ImportError` raised by the
invocation itself is re-raised and reported with its own message,
unwrapped. In every case the exit status is 1 and stdout stays empty. -/
theorem C6_capability_errors (argv : List String) (env : Env) (stdin : String)
    (fl : List (String × Json)) (t p : String) (sv : Json)
    (hargv : wantsHelp argv = false)
    (hstdin : pyStrip stdin ≠ "")
    (hload : env.loads (pyStrip stdin) = .ok (.obj fl))
    (htext : (List.lookup "text" fl).getD (Json.str ("")) = Json.str t)
    (hstr : (List.lookup "strength" fl).getD (Json.str ("medium")) = sv)
    (hpers : (List.lookup "personality" fl).getD (Json.str ("")) = Json.str p)
    (hne : pyStrip t ≠ "") :
    (env.cap.available = false →
      run argv env stdin =
        { exitCode := 1, stdout := [], stderr := ["Error: " ++ availabilityMsg],
          capCalls := [] }) ∧
    (∀ e, env.cap.available = true →
      env.cap.humanize t (coerceStrength sv) (persArg p) = .exn e →
      (∀ m, e ≠ .importError m) →
      run argv env stdin =
        { exitCode := 1, stdout := [],
          stderr := ["Error: " ++ ("Humano processing failed: " ++ e.msg)],
          capCalls := [theCall t sv p] }) ∧
    (∀ m, env.cap.available = true →
      env.cap.humanize t (coerceStrength sv) (persArg p) = .exn (.importError m) →
      run argv env stdin =
        { exitCode := 1, stdout := [], stderr := ["Error: " ++ m],
          capCalls := [theCall t sv p] }) := by
  refine ⟨?_, ?_, ?_⟩
  · intro hcap
    rw [run_request_unavailable argv env stdin fl t hargv hstdin hload htext hne hcap]
    rfl
  · intro e hcap hh hni
    rw [run_request argv env stdin fl t p sv hargv hstdin hload htext hstr hpers hne hcap]
    rw [hh]
    rcases e with m | m | m | m | m
    · rfl
    · exact absurd rfl (hni m)
    · rfl
    · rfl
    · rfl
  · intro m hcap hh
    rw [run_request argv env stdin fl t p sv hargv hstdin hload htext hstr hpers hne hcap]
    rw [hh]
    rfl

theorem C6_capability_errors_witness :
    run ["humanizer.py"] (envWith absentCap (loadsOnly impStdin impReq)) impStdin =
      { exitCode := 1, stdout := [], stderr := ["Error: " ++ availabilityMsg],
        capCalls := [] } ∧
    run ["humanizer.py"] impEnv impStdin =
      { exitCode := 1, stdout := [], stderr := ["Error: " ++ ("boom")],
        capCalls := [theCall ("x") (Json.str ("medium")) ("")] } := by
  refine ⟨?_, ?_⟩
  · exact (C6_capability_errors ["humanizer.py"]
      (envWith absentCap (loadsOnly impStdin impReq)) impStdin
      [("text", Json.str ("x"))] ("x") ("") (Json.str ("medium"))
      (by decide) (by decide) rfl rfl rfl rfl (by decide)).1 rfl
  · exact (C6_capability_errors ["humanizer.py"] impEnv impStdin
      [("text", Json.str ("x"))] ("x") ("") (Json.str ("medium"))
      (by decide) (by decide) rfl rfl rfl rfl (by decide)).2.2 ("boom") rfl rfl

/-- C7: when the first command-line argument is `--help`, `-h` or
`help`, the run prints the dependency-check report to stderr only
(stdout stays empty, the report is never empty), performs no request
processing (empty capability trace), is independent of stdin — it is
never read — and exits with status 0. -/
theorem C7_help_flag (argv : List String) (env : Env) (stdin stdin2 : String)
    (h : wantsHelp argv = true) :
    run argv env stdin =
      { exitCode := 0, stdout := [], stderr := print_dependencies_help env,
        capCalls := [] } ∧
    run argv env stdin = run argv env stdin2 ∧
    print_dependencies_help env ≠ [] := by
  refine ⟨?_, ?_, ?_⟩
  · unfold run
    rw [if_pos h]
  · simp [run, h]
  · by_cases hd : check_dependencies env = []
    · simp [print_dependencies_help, hd]
    · simp [print_dependencies_help, hd]

theorem C7_help_flag_witness :
    run ["humanizer.py", "--help"] (envWith absentCap (loadsOnly impStdin impReq))
        ("") =
      { exitCode := 0, stdout := [],
        stderr := print_dependencies_help (envWith absentCap (loadsOnly impStdin impReq)),
        capCalls := [] } ∧
    run ["humanizer.py", "--help"] (envWith absentCap (loadsOnly impStdin impReq)) ("") =
      run ["humanizer.py", "--help"] (envWith absentCap (loadsOnly impStdin impReq)) ("xyz") ∧
    print_dependencies_help (envWith absentCap (loadsOnly impStdin impReq)) ≠ [] :=
  C7_help_flag ["humanizer.py", "--help"]
    (envWith absentCap (loadsOnly impStdin impReq)) ("") ("xyz") (by decide)

/-- C8: whenever the request reaches the external capability, the
personality keyword argument it receives is `persArg p`: `none` when the
raw personality string (the `''` default standing for an absent field,
or the given string) strips to empty, and otherwise the personality with
leading and trailing whitespace removed. -/
theorem C8_personality_trimming (argv : List String) (env : Env) (stdin : String)
    (fl : List (String × Json)) (t p : String) (sv : Json)
    (hargv : wantsHelp argv = false)
    (hstdin : pyStrip stdin ≠ "")
    (hload : env.loads (pyStrip stdin) = .ok (.obj fl))
    (htext : (List.lookup "text" fl).getD (Json.str ("")) = Json.str t)
    (hstr : (List.lookup "strength" fl).getD (Json.str ("medium")) = sv)
    (hpers : (List.lookup "personality" fl).getD (Json.str ("")) = Json.str p)
    (hne : pyStrip t ≠ "")
    (hcap : env.cap.available = true) :
    (∃ st, (run argv env stdin).capCalls = [⟨t, st, persArg p⟩]) ∧
    (pyStrip p = "" → persArg p = none) ∧
    (pyStrip p ≠ "" → persArg p = some (pyStrip p)) := by
  refine ⟨⟨coerceStrength sv, ?_⟩, ?_, ?_⟩
  · rw [run_request argv env stdin fl t p sv hargv hstdin hload htext hstr hpers hne hcap]
    rcases env.cap.humanize t (coerceStrength sv) (persArg p) with ret | e
    · rw [output_result_capCalls]
      rfl
    · rfl
  · intro h
    simp [persArg, h]
  · intro h
    simp [persArg, h]

theorem C8_personality_trimming_witness :
    (∃ st, (run ["humanizer.py"]
      (envWith upperCap (loadsOnly ("x")
        (Json.obj [("text", Json.str ("hello")), ("personality", Json.str ("  chatty  "))])))
      ("x")).capCalls = [⟨("hello"), st, persArg ("  chatty  ")⟩]) ∧
    (pyStrip ("  chatty  ") = "" → persArg ("  chatty  ") = none) ∧
    (pyStrip ("  chatty  ") ≠ "" → persArg ("  chatty  ") = some (pyStrip ("  chatty  "))) :=
  C8_personality_trimming ["humanizer.py"]
    (envWith upperCap (loadsOnly ("x")
      (Json.obj [("text", Json.str ("hello")), ("personality", Json.str ("  chatty  "))])))
    ("x") [("text", Json.str ("hello")), ("personality", Json.str ("  chatty  "))]
    ("hello") ("  chatty  ") (Json.str ("medium"))
    (by decide) (by decide) rfl rfl rfl rfl (by decide) rfl

theorem pyStrip_all_space (s : String) (h : ∀ c ∈ s.data, isPySpace c = true) :
    pyStrip s = "" := by
  unfold pyStrip
  have h1 : s.data.dropWhile isPySpace = [] := by
    rw [List.dropWhile_eq_nil_iff]
    exact h
  rw [h1]
  rfl

/-- C9: on every successful execution the `humanized_text` written to
stdout is the capability result after stringification with leading and
trailing whitespace removed (`pyStrip ret.stringify`); in particular a
result consisting only of whitespace strips to the empty string, so
surrounding whitespace in the result is never preserved. -/
theorem C9_result_stripped (argv : List String) (env : Env) (stdin : String)
    (fl : List (String × Json)) (t p : String) (sv : Json) (ret : PyRet)
    (hargv : wantsHelp argv = false)
    (hstdin : pyStrip stdin ≠ "")
    (hload : env.loads (pyStrip stdin) = .ok (.obj fl))
    (htext : (List.lookup "text" fl).getD (Json.str ("")) = Json.str t)
    (hstr : (List.lookup "strength" fl).getD (Json.str ("medium")) = sv)
    (hpers : (List.lookup "personality" fl).getD (Json.str ("")) = Json.str p)
    (hne : pyStrip t ≠ "")
    (hcap : env.cap.available = true)
    (hser : env.serFault = none)
    (hhum : env.cap.humanize t (coerceStrength sv) (persArg p) = .ok ret) :
    run argv env stdin =
      { exitCode := 0,
        stdout := [dumpsOutput (pyStrip ret.stringify) (get_current_timestamp env.clock)],
        stderr := [], capCalls := [theCall t sv p] } ∧
    ((∀ c ∈ ret.stringify.data, isPySpace c = true) →
      pyStrip ret.stringify = "") := by
  refine ⟨?_, fun h => pyStrip_all_space ret.stringify h⟩
  rw [run_request argv env stdin fl t p sv hargv hstdin hload htext hstr hpers hne hcap]
  rw [hhum]
  simp only [output_result, hser]

theorem C9_result_stripped_witness :
    run ["humanizer.py"] wsEnv impStdin =
      { exitCode := 0,
        stdout := [dumpsOutput (pyStrip (PyRet.str ("   ")).stringify)
          (get_current_timestamp wsEnv.clock)],
        stderr := [], capCalls := [theCall ("x") (Json.str ("medium")) ("")] } ∧
    ((∀ c ∈ (PyRet.str ("   ")).stringify.data, isPySpace c = true) →
      pyStrip (PyRet.str ("   ")).stringify = "") :=
  C9_result_stripped ["humanizer.py"] wsEnv impStdin [("text", Json.str ("x"))]
    ("x") ("") (Json.str ("medium")) (.str ("   "))
    (by decide) (by decide) rfl rfl rfl rfl (by decide) rfl rfl rfl

theorem process_unavailable (cap : Capability) (text : String)
    (strength personality : Json) (hcap : cap.available = false) :
    process_with_humano cap text strength personality =
      (.error (.importError availabilityMsg), []) := by
  unfold process_with_humano
  rw [hcap]
  rfl

theorem process_nonstring_personality (cap : Capability) (text : String)
    (strength w : Json) (hcap : cap.available = true)
    (hw : ∀ s, w ≠ Json.str s) :
    process_with_humano cap text strength w =
      (.error (.runtimeError ("Humano processing failed: " ++
        ("\x27" ++ w.typeName ++ "\x27 object has no attribute \x27strip\x27"))),
       []) := by
  unfold process_with_humano
  rw [hcap]
  rcases w with _ | b | n | s | ys | gl
  · rfl
  · rfl
  · rfl
  · exact absurd rfl (hw s)
  · rfl
  · rfl

/-- C10: valid-JSON stdin whose top-level value is not an object, or an
object whose `text` or `personality` field holds a non-string value,
makes the program exit with status 1 with a single `Error: `-prefixed
stderr line, nothing on stdout, and an empty capability call trace —
such inputs are never forwarded to the external capability. -/
theorem C10_nonstring_inputs (argv : List String) (env : Env) (stdin : String)
    (v : Json)
    (hargv : wantsHelp argv = false)
    (hstdin : pyStrip stdin ≠ "")
    (hload : env.loads (pyStrip stdin) = .ok v)
    (hbad : (∀ fl, v ≠ Json.obj fl) ∨
      (∃ fl w, v = Json.obj fl ∧ List.lookup "text" fl = some w ∧
        ∀ s, w ≠ Json.str s) ∨
      (∃ fl w, v = Json.obj fl ∧ List.lookup "personality" fl = some w ∧
        ∀ s, w ≠ Json.str s)) :
    (run argv env stdin).exitCode = 1 ∧
    (run argv env stdin).stdout = [] ∧
    (∃ m, (run argv env stdin).stderr = ["Error: " ++ m]) ∧
    (run argv env stdin).capCalls = [] := by
  rw [run_not_help argv env stdin hargv]
  have key : ∃ e, pyMain env stdin = errExit e [] := by
    unfold pyMain
    rw [read_input_ok env.loads stdin v hstdin hload]
    rcases hbad with h | ⟨fl, w, rfl, hl, hw⟩ | ⟨fl, w, rfl, hl, hw⟩
    · rcases v with _ | b | n | s | xs | fl
      · exact ⟨_, rfl⟩
      · exact ⟨_, rfl⟩
      · exact ⟨_, rfl⟩
      · exact ⟨_, rfl⟩
      · exact ⟨_, rfl⟩
      · exact absurd rfl (h fl)
    · simp only [Json.getD, hl, Option.getD_some]
      rcases w with _ | b | n | s | xs | gl
      · exact ⟨_, rfl⟩
      · exact ⟨_, rfl⟩
      · exact ⟨_, rfl⟩
      · exact absurd rfl (hw s)
      · exact ⟨_, rfl⟩
      · exact ⟨_, rfl⟩
    · simp only [Json.getD, hl, Option.getD_some]
      rcases htv : (List.lookup "text" fl).getD (Json.str ("")) with _ | b | n | ts | xs | gl
      · exact ⟨_, rfl⟩
      · exact ⟨_, rfl⟩
      · exact ⟨_, rfl⟩
      · dsimp only
        by_cases hb : pyStrip ts = ""
        · rw [if_pos hb]
          exact ⟨_, rfl⟩
        · rw [if_neg hb]
          rcases hav : env.cap.available
          · rw [process_unavailable env.cap ts _ w hav]
            exact ⟨_, rfl⟩
          · rw [process_nonstring_personality env.cap ts _ w hav hw]
            exact ⟨_, rfl⟩
      · exact ⟨_, rfl⟩
      · exact ⟨_, rfl⟩
  rcases key with ⟨e, hrun⟩
  rw [hrun]
  exact ⟨rfl, rfl, ⟨e.msg, rfl⟩, rfl⟩

theorem C10_nonstring_inputs_witness :
    (run ["humanizer.py"] arrEnv ("[1]")).exitCode = 1 ∧
    (run ["humanizer.py"] arrEnv ("[1]")).stdout = [] ∧
    (∃ m, (run ["humanizer.py"] arrEnv ("[1]")).stderr = ["Error: " ++ m]) ∧
    (run ["humanizer.py"] arrEnv ("[1]")).capCalls = [] :=
  C10_nonstring_inputs ["humanizer.py"] arrEnv ("[1]") (Json.arr [Json.num 1])
    (by decide) (by decide) rfl
    (Or.inl (by intro fl h; exact Json.noConfusion h))

end Humanizer
